import Mathlib

/-!
Verification of the GreenFlow Derived Metrics Engine.

Shallow embedding of the pure score/classification functions of the
repository:
* `calculateCarbonFootprint` — shipment carbon footprint
  (shipment model, emission-factor table);
* `calculateGreenScore` — product green score (Order.js product model);
* `calculateESGScore` — supplier ESG score (supplier model);
* `calculateRiskLevel`, `generateRecommendations` — waste-alert
  classifier (WasteAlert.js);
* `calculateCarbonScore`, `calculateSupplierScore`,
  `calculateProductScore`, `calculateWasteScore` — aggregate
  sustainability scorer (routes/analytics.js).

JavaScript numbers are modelled as exact rationals (`ℚ`).  Fields that
may be `undefined`/missing are `Option`-valued; JavaScript falsiness of
a number is `none` or `some 0`, of a string `none` or `some ""`.
`Math.round` rounds half toward `+∞`, i.e. `⌊x + 1/2⌋`.  A JavaScript
division `0/0` produces `NaN`, which then propagates through `-`,
`Math.min` and `Math.max`; functions in which this can happen return
`Option ℚ`, with `none` standing for `NaN`.
-/

/-- JavaScript falsiness of an optional number: `undefined` or `0`. -/
def numFalsy : Option ℚ → Bool
  | none => true
  | some q => q = 0

/-- JavaScript falsiness of an optional string: `undefined` or `""`. -/
def strFalsy : Option String → Bool
  | none => true
  | some s => s = ""

/-- JavaScript `Math.round`: round half toward positive infinity. -/
def jsRound (x : ℚ) : ℤ := ⌊x + 1 / 2⌋

/-- `Math.round(x * 100) / 100`: round to two decimal places. -/
def round2 (x : ℚ) : ℚ := (jsRound (x * 100) : ℚ) / 100

/-! ## Carbon Footprint Calculator (shipment model) -/

/-- The scoring-relevant fields of a shipment document. -/
structure Shipment where
  distanceKm : Option ℚ
  transportMode : Option String
  vehicleType : Option String
  quantity : Option ℚ
  packagingWeight : Option ℚ
deriving DecidableEq

/-- Vehicle-level rows of the `emissionFactors` table
(`diesel`/`electric`/`hybrid` by vehicle type). -/
def emissionFactorsVehicle : String → String → Option ℚ
  | "diesel", "truck" => some (15 / 100)
  | "diesel", "van" => some (12 / 100)
  | "diesel", "car" => some (8 / 100)
  | "electric", "truck" => some (5 / 100)
  | "electric", "van" => some (4 / 100)
  | "electric", "car" => some (2 / 100)
  | "hybrid", "truck" => some (10 / 100)
  | "hybrid", "van" => some (8 / 100)
  | "hybrid", "car" => some (5 / 100)
  | _, _ => none

/-- Mode-level rows of the `emissionFactors` table (`rail`/`ship`/`air`). -/
def emissionFactorsMode : String → Option ℚ
  | "rail" => some (3 / 100)
  | "ship" => some (2 / 100)
  | "air" => some (1 / 2)
  | _ => none

/-- `shipmentSchema.methods.calculateCarbonFootprint`.  Returns `0` when
`distanceKm`, `transportMode` or `quantity` is falsy; otherwise looks up
the emission factor (mode-level for rail/ship/air, else vehicle-level
with fallback `diesel.truck = 0.15`), multiplies by distance and total
weight in tons, and rounds to two decimals. -/
def calculateCarbonFootprint (s : Shipment) : ℚ :=
  if numFalsy s.distanceKm || strFalsy s.transportMode || numFalsy s.quantity then 0
  else
    let distanceKm := s.distanceKm.getD 0
    let quantity := s.quantity.getD 0
    let packagingWeight := s.packagingWeight.getD 0
    let transportMode := s.transportMode.getD ""
    let vehicleType := if strFalsy s.vehicleType then "truck" else s.vehicleType.getD ""
    let emissionFactor :=
      if transportMode = "rail" || transportMode = "ship" || transportMode = "air" then
        (emissionFactorsMode transportMode).getD (1 / 10)
      else
        (emissionFactorsVehicle transportMode vehicleType).getD (15 / 100)
    let totalWeight := quantity + packagingWeight
    round2 (distanceKm * emissionFactor * (totalWeight / 1000))

/-- The vehicle type actually used: a missing (falsy) vehicleType
defaults to truck (`String(this.vehicleType || 'truck')`). -/
def effectiveVehicle (vt : Option String) : String :=
  if strFalsy vt then "truck" else vt.getD ""

/-- Modelled from the claim wording, for comparison with the source:
the fixed emission-factor table (diesel truck 0.15, van 0.12, car 0.08;
electric truck 0.05, van 0.04, car 0.02; hybrid truck 0.10, van 0.08,
car 0.05; rail 0.03, ship 0.02, air 0.50), where a missing (falsy)
vehicleType defaults to truck and an unrecognized vehicleType under
diesel/electric/hybrid falls back to diesel truck 0.15. -/
def specEmissionFactor (mode : String) (vt : Option String) : ℚ :=
  if mode = "rail" then 3 / 100
  else if mode = "ship" then 2 / 100
  else if mode = "air" then 1 / 2
  else if mode = "diesel" then
    if effectiveVehicle vt = "truck" then 15 / 100
    else if effectiveVehicle vt = "van" then 12 / 100
    else if effectiveVehicle vt = "car" then 8 / 100 else 15 / 100
  else if mode = "electric" then
    if effectiveVehicle vt = "truck" then 5 / 100
    else if effectiveVehicle vt = "van" then 4 / 100
    else if effectiveVehicle vt = "car" then 2 / 100 else 15 / 100
  else
    if effectiveVehicle vt = "truck" then 10 / 100
    else if effectiveVehicle vt = "van" then 8 / 100
    else if effectiveVehicle vt = "car" then 5 / 100 else 15 / 100

/-! ## Aggregate Sustainability Scorer (routes/analytics.js) -/

/-- A shipment as seen by the aggregate scorer: only `carbonKg`. -/
structure ShipmentAgg where
  carbonKg : ℚ
deriving DecidableEq

/-- `calculateCarbonScore`: banded score of the mean carbon per
shipment; empty population gives `0`. -/
def calculateCarbonScore (shipments : List ShipmentAgg) : ℚ :=
  if shipments.length = 0 then 0
  else
    let totalCarbon := (shipments.map (fun s => s.carbonKg)).sum
    let avgCarbonPerShipment := totalCarbon / shipments.length
    if avgCarbonPerShipment < 5 then 100
    else if avgCarbonPerShipment < 10 then 80
    else if avgCarbonPerShipment < 20 then 60
    else if avgCarbonPerShipment < 50 then 40
    else 20

/-- A supplier as seen by the aggregate scorer: only `ESGscore`. -/
structure SupplierAgg where
  ESGscore : ℚ
deriving DecidableEq

/-- `calculateSupplierScore`: mean ESG score capped at 100; empty
population gives `0`. -/
def calculateSupplierScore (suppliers : List SupplierAgg) : ℚ :=
  if suppliers.length = 0 then 0
  else
    min 100 ((suppliers.map (fun s => s.ESGscore)).sum / suppliers.length)

/-- A product as seen by the aggregate scorer: only the stored green
score. -/
structure ProductAgg where
  greenScore : ℚ
deriving DecidableEq

/-- `calculateProductScore`: mean green score capped at 100; empty
population gives `0`. -/
def calculateProductScore (products : List ProductAgg) : ℚ :=
  if products.length = 0 then 0
  else
    min 100 ((products.map (fun p => p.greenScore)).sum / products.length)

/-- Lifecycle status of a waste alert. -/
inductive AlertStatus where
  | active
  | acknowledged
  | resolved
  | dismissed
deriving DecidableEq

/-- Discrete waste-risk classification. -/
inductive RiskLevel where
  | low
  | medium
  | high
  | critical
deriving DecidableEq

/-- An alert as seen by the aggregate scorer: `status` and `riskLevel`. -/
structure AlertAgg where
  status : AlertStatus
  riskLevel : RiskLevel
deriving DecidableEq

/-- `calculateWasteScore`: empty population gives `100`; otherwise
`resolutionRate × 100 − criticalRate × 30` clamped to `[0, 100]`, where
`criticalRate = critical-active / active`.  When the population is
non-empty but has no active alert, `criticalRate` is the JavaScript
division `0/0 = NaN`, and the subtraction, `Math.min` and `Math.max`
all propagate it, so the function yields `NaN` — modelled as `none`. -/
def calculateWasteScore (alerts : List AlertAgg) : Option ℚ :=
  if alerts.length = 0 then some 100
  else
    let activeAlerts := alerts.filter (fun a => decide (a.status = AlertStatus.active))
    let criticalAlerts := activeAlerts.filter (fun a => decide (a.riskLevel = RiskLevel.critical))
    let resolutionRate : ℚ :=
      ((alerts.filter (fun a => decide (a.status = AlertStatus.resolved))).length : ℚ) /
        (alerts.length : ℚ)
    if activeAlerts.length = 0 then none
    else
      let criticalRate : ℚ := (criticalAlerts.length : ℚ) / (activeAlerts.length : ℚ)
      some (max 0 (min 100 (resolutionRate * 100 - criticalRate * 30)))

/-! ## Waste Risk Classifier (WasteAlert.js) -/

/-- The scoring-relevant fields of a waste-alert document.  Per the
schema, `predictedWasteQty ≥ 0`, `currentStock ≥ 0`,
`predictedWastePercentage ∈ [0,100]`, `confidence ∈ [0,100]`. -/
structure WasteAlert where
  predictedWasteQty : ℚ
  currentStock : ℚ
  predictedWastePercentage : ℚ
  confidence : ℚ
deriving DecidableEq

/-- `wasteAlertSchema.methods.calculateRiskLevel`: step function of
`adjustedRisk = predictedWastePercentage × (confidence / 100)`. -/
def calculateRiskLevel (a : WasteAlert) : RiskLevel :=
  let adjustedRisk := a.predictedWastePercentage * (a.confidence / 100)
  if 30 ≤ adjustedRisk then RiskLevel.critical
  else if 20 ≤ adjustedRisk then RiskLevel.high
  else if 10 ≤ adjustedRisk then RiskLevel.medium
  else RiskLevel.low

/-- Severity rank of a risk level: low < medium < high < critical. -/
def severity : RiskLevel → ℕ
  | RiskLevel.low => 0
  | RiskLevel.medium => 1
  | RiskLevel.high => 2
  | RiskLevel.critical => 3

/-- One recommended action attached to a waste alert. -/
structure Recommendation where
  action : String
  impact : String
  description : String
  estimatedSavings : ℚ
deriving DecidableEq

/-- `wasteAlertSchema.methods.generateRecommendations`: builds a fresh
list, pushing one entry for each of the three conditions that holds. -/
def generateRecommendations (a : WasteAlert) : List Recommendation :=
  (if 20 < a.predictedWastePercentage then
    [⟨"Discount Pricing", "high",
      "Implement 20-30% discount to increase sales velocity",
      a.predictedWasteQty * 5⟩]
  else []) ++
  (if a.predictedWasteQty * 2 < a.currentStock then
    [⟨"Transfer to Other Stores", "medium",
      "Transfer excess inventory to stores with higher demand",
      a.predictedWasteQty * 3⟩]
  else []) ++
  (if 15 < a.predictedWastePercentage then
    [⟨"Promotional Campaign", "medium",
      "Launch targeted marketing campaign to boost sales",
      a.predictedWasteQty * 4⟩]
  else [])

/-! ## Green Score Calculator (product model in Order.js) -/

/-- The scoring-relevant fields of a product document. -/
structure Product where
  packagingType : String
  carbonFootprint : ℚ
  waterFootprint : ℚ
  certifications : List String
  baseSpoilageRate : ℚ
deriving DecidableEq

/-- The `packagingScores` lookup table. -/
def packagingScores : String → Option ℚ
  | "minimal" => some 25
  | "compostable" => some 20
  | "biodegradable" => some 15
  | "recyclable" => some 10
  | "plastic" => some (-10)
  | _ => none

/-- First-match carbon-footprint adjustment of the green score
(the `if / else if` chain in `calculateGreenScore`). -/
def greenCarbonAdj (cf : ℚ) : ℚ :=
  if cf < 1 then 20
  else if cf < 5 then 15
  else if cf < 10 then 10
  else if 20 < cf then -15
  else 0

/-- First-match water-footprint adjustment of the green score. -/
def greenWaterAdj (wf : ℚ) : ℚ :=
  if wf < 10 then 15
  else if wf < 50 then 10
  else if 100 < wf then -10
  else 0

/-- First-match spoilage-rate adjustment of the green score. -/
def greenSpoilageAdj (sr : ℚ) : ℚ :=
  if sr < 2 then 10
  else if sr < 5 then 5
  else if 15 < sr then -10
  else 0

/-- `productSchema.methods.calculateGreenScore`: base 50, plus the
packaging score, the three first-match `if / else if` adjustments, and
5 per certification, clamped to `[0, 100]`. -/
def calculateGreenScore (p : Product) : ℚ :=
  let score := 50 + (packagingScores p.packagingType).getD 0
  let score := score + greenCarbonAdj p.carbonFootprint
  let score := score + greenWaterAdj p.waterFootprint
  let score := score + (p.certifications.length : ℚ) * 5
  let score := score + greenSpoilageAdj p.baseSpoilageRate
  max 0 (min 100 score)

/-- Modelled from the claim wording, for comparison with the source:
every threshold band whose condition holds contributes its adjustment
(non-exclusive additive layering), before clamping to `[0, 100]`. -/
def greenScoreAdditiveSpec (p : Product) : ℚ :=
  let score := 50 + (packagingScores p.packagingType).getD 0
    + (if p.carbonFootprint < 1 then 20 else 0)
    + (if p.carbonFootprint < 5 then 15 else 0)
    + (if p.carbonFootprint < 10 then 10 else 0)
    + (if 20 < p.carbonFootprint then -15 else 0)
    + (if p.waterFootprint < 10 then 15 else 0)
    + (if p.waterFootprint < 50 then 10 else 0)
    + (if 100 < p.waterFootprint then -10 else 0)
    + (p.certifications.length : ℚ) * 5
    + (if p.baseSpoilageRate < 2 then 10 else 0)
    + (if p.baseSpoilageRate < 5 then 5 else 0)
    + (if 15 < p.baseSpoilageRate then -10 else 0)
  max 0 (min 100 score)

/-- Modelled from the claim wording amended to disjoint bands: the
adjustments still layer additively, but each metric's bands are
mutually exclusive half-open intervals (the first satisfied threshold
of the chain), before clamping to `[0, 100]`. -/
def greenScoreExclusiveSpec (p : Product) : ℚ :=
  max 0 (min 100 (50 + (packagingScores p.packagingType).getD 0
    + (if p.carbonFootprint < 1 then 20 else 0)
    + (if 1 ≤ p.carbonFootprint ∧ p.carbonFootprint < 5 then 15 else 0)
    + (if 5 ≤ p.carbonFootprint ∧ p.carbonFootprint < 10 then 10 else 0)
    + (if 20 < p.carbonFootprint then -15 else 0)
    + (if p.waterFootprint < 10 then 15 else 0)
    + (if 10 ≤ p.waterFootprint ∧ p.waterFootprint < 50 then 10 else 0)
    + (if 100 < p.waterFootprint then -10 else 0)
    + (p.certifications.length : ℚ) * 5
    + (if p.baseSpoilageRate < 2 then 10 else 0)
    + (if 2 ≤ p.baseSpoilageRate ∧ p.baseSpoilageRate < 5 then 5 else 0)
    + (if 15 < p.baseSpoilageRate then -10 else 0)))

/-! ## ESG Score Calculator (supplier model) -/

/-- The scoring-relevant fields of a supplier document; `auditDocs`
keeps only each document's `verified` flag. -/
structure Supplier where
  certificationLevel : String
  carbonFootprint : ℚ
  wasteReduction : ℚ
  renewableEnergy : ℚ
  auditDocs : List Bool
deriving DecidableEq

/-- The `certScores` lookup table. -/
def certScores : String → Option ℚ
  | "None" => some 0
  | "Basic" => some 10
  | "FairTrade" => some 25
  | "Organic" => some 30
  | "B Corp" => some 40
  | "Carbon Neutral" => some 35
  | _ => none

/-- `supplierSchema.methods.calculateESGScore`: certification bonus,
three first-match `if / else if` metric bonuses, verified-document
bonus capped at 20, all capped at 100. -/
def calculateESGScore (s : Supplier) : ℚ :=
  let score := (certScores s.certificationLevel).getD 0
  let score := score +
    (if s.carbonFootprint < 10 then 20
     else if s.carbonFootprint < 25 then 15
     else if s.carbonFootprint < 50 then 10
     else 0)
  let score := score +
    (if 50 < s.wasteReduction then 20
     else if 25 < s.wasteReduction then 15
     else if 10 < s.wasteReduction then 10
     else 0)
  let score := score +
    (if 80 < s.renewableEnergy then 20
     else if 50 < s.renewableEnergy then 15
     else if 20 < s.renewableEnergy then 10
     else 0)
  let score := score + min (((s.auditDocs.filter id).length : ℚ) * 5) 20
  min score 100

/-! ## Theorems -/

/-- C7: the aggregate scorer's empty-population policy is asymmetric:
carbon, supplier and product sub-scores of an empty population are `0`,
while the waste sub-score of an empty alert population is `100`. -/
theorem emptyPopulationAsymmetry :
    calculateCarbonScore [] = 0 ∧
    calculateWasteScore [] = some 100 ∧
    calculateSupplierScore [] = 0 ∧
    calculateProductScore [] = 0 := by
  refine ⟨rfl, rfl, rfl, rfl⟩

/-- C4: the waste-risk level is a deterministic step function of
`adjustedRisk = predictedWastePercentage × (confidence / 100)` with
inclusive lower boundaries: critical iff `adjustedRisk ≥ 30`, high iff
`20 ≤ adjustedRisk < 30`, medium iff `10 ≤ adjustedRisk < 20`, else
low. -/
theorem riskLevel_step_function (a : WasteAlert)
    (h0 : 0 ≤ a.predictedWastePercentage) (h1 : a.predictedWastePercentage ≤ 100)
    (h2 : 0 ≤ a.confidence) (h3 : a.confidence ≤ 100) :
    (calculateRiskLevel a = RiskLevel.critical ↔
      30 ≤ a.predictedWastePercentage * (a.confidence / 100)) ∧
    (calculateRiskLevel a = RiskLevel.high ↔
      20 ≤ a.predictedWastePercentage * (a.confidence / 100) ∧
        a.predictedWastePercentage * (a.confidence / 100) < 30) ∧
    (calculateRiskLevel a = RiskLevel.medium ↔
      10 ≤ a.predictedWastePercentage * (a.confidence / 100) ∧
        a.predictedWastePercentage * (a.confidence / 100) < 20) ∧
    (calculateRiskLevel a = RiskLevel.low ↔
      a.predictedWastePercentage * (a.confidence / 100) < 10) := by
  simp only [calculateRiskLevel]
  split_ifs with hc hh hm <;>
    refine ⟨?_, ?_, ?_, ?_⟩ <;>
      simp_all <;>
        first
          | linarith
          | (constructor <;> linarith)
          | (intro h; linarith)

/-- Boundary witness for C4: `adjustedRisk = 29.9` yields high and
`adjustedRisk = 30` yields critical. -/
theorem riskLevel_step_function_witness :
    calculateRiskLevel ⟨0, 0, 299 / 10, 100⟩ = RiskLevel.high ∧
    calculateRiskLevel ⟨0, 0, 30, 100⟩ = RiskLevel.critical := by
  constructor
  · exact ((riskLevel_step_function ⟨0, 0, 299 / 10, 100⟩ (by norm_num) (by norm_num)
      (by norm_num) (by norm_num)).2.1).mpr (by norm_num)
  · exact ((riskLevel_step_function ⟨0, 0, 30, 100⟩ (by norm_num) (by norm_num)
      (by norm_num) (by norm_num)).1).mpr (by norm_num)

/-- C10: the waste-risk level is monotone in both inputs: raising the
predicted waste percentage and/or the confidence (within the
non-negative domain) never lowers the severity of the returned level
under the ordering low < medium < high < critical. -/
theorem riskLevel_monotone (q s q2 s2 wp1 wp2 c1 c2 : ℚ)
    (hwp0 : 0 ≤ wp1) (hwp : wp1 ≤ wp2) (hc0 : 0 ≤ c1) (hc : c1 ≤ c2) :
    severity (calculateRiskLevel ⟨q, s, wp1, c1⟩) ≤
      severity (calculateRiskLevel ⟨q2, s2, wp2, c2⟩) := by
  have hr : wp1 * (c1 / 100) ≤ wp2 * (c2 / 100) :=
    mul_le_mul hwp (by linarith) (by positivity) (by linarith)
  simp only [calculateRiskLevel]
  split_ifs <;> simp_all [severity] <;> linarith

/-- Witness for C10 at a concrete pair of inputs. -/
theorem riskLevel_monotone_witness :
    severity (calculateRiskLevel ⟨0, 0, 10, 50⟩) ≤
      severity (calculateRiskLevel ⟨0, 0, 20, 100⟩) :=
  riskLevel_monotone 0 0 0 0 10 20 50 100 (by norm_num) (by norm_num)
    (by norm_num) (by norm_num)

/-- C8: the recommendations list has zero to three entries, one per
independently satisfied condition — Discount Pricing
(savings `qty × 5`) iff `predictedWastePercentage > 20`, Transfer to
Other Stores (savings `qty × 3`) iff `currentStock > qty × 2`,
Promotional Campaign (savings `qty × 4`) iff
`predictedWastePercentage > 15`; the example alert
`⟨qty 20, stock 50, pct 25, confidence 80⟩` gets risk level high and
all three recommendations. -/
theorem recommendations_conditions :
    (∀ a : WasteAlert,
      (generateRecommendations a).length ≤ 3 ∧
      ((∃ r ∈ generateRecommendations a, r.action = "Discount Pricing" ∧
          r.estimatedSavings = a.predictedWasteQty * 5) ↔
        20 < a.predictedWastePercentage) ∧
      ((∃ r ∈ generateRecommendations a, r.action = "Transfer to Other Stores" ∧
          r.estimatedSavings = a.predictedWasteQty * 3) ↔
        a.predictedWasteQty * 2 < a.currentStock) ∧
      ((∃ r ∈ generateRecommendations a, r.action = "Promotional Campaign" ∧
          r.estimatedSavings = a.predictedWasteQty * 4) ↔
        15 < a.predictedWastePercentage)) ∧
    calculateRiskLevel ⟨20, 50, 25, 80⟩ = RiskLevel.high ∧
    (generateRecommendations ⟨20, 50, 25, 80⟩).map (fun r => r.action) =
      ["Discount Pricing", "Transfer to Other Stores", "Promotional Campaign"] := by
  refine ⟨fun a => ?_, ?_, ?_⟩
  · unfold generateRecommendations
    split_ifs <;> simp_all
  · simp only [calculateRiskLevel]
    norm_num
  · simp only [generateRecommendations]
    norm_num

/-- The element-wise carbon adjustment equals the sum of its disjoint
bands. -/
theorem greenCarbonAdj_bands (cf : ℚ) :
    greenCarbonAdj cf = (if cf < 1 then 20 else 0)
      + (if 1 ≤ cf ∧ cf < 5 then 15 else 0)
      + (if 5 ≤ cf ∧ cf < 10 then 10 else 0)
      + (if 20 < cf then -15 else 0) := by
  unfold greenCarbonAdj
  split_ifs <;> (try simp_all) <;> linarith

/-- The element-wise water adjustment equals the sum of its disjoint
bands. -/
theorem greenWaterAdj_bands (wf : ℚ) :
    greenWaterAdj wf = (if wf < 10 then 15 else 0)
      + (if 10 ≤ wf ∧ wf < 50 then 10 else 0)
      + (if 100 < wf then -10 else 0) := by
  unfold greenWaterAdj
  split_ifs <;> simp_all <;> linarith

/-- The element-wise spoilage adjustment equals the sum of its disjoint
bands. -/
theorem greenSpoilageAdj_bands (sr : ℚ) :
    greenSpoilageAdj sr = (if sr < 2 then 10 else 0)
      + (if 2 ≤ sr ∧ sr < 5 then 5 else 0)
      + (if 15 < sr then -10 else 0) := by
  unfold greenSpoilageAdj
  split_ifs <;> simp_all <;> linarith

/-- Every certification level maps to a non-negative bonus. -/
theorem certScores_nonneg (l : String) : 0 ≤ (certScores l).getD 0 := by
  unfold certScores
  split <;> norm_num

/-- C3 counterexample: the claim's non-exclusive additive layering
disagrees with the source on the product
`⟨plastic, carbon 0.5, water 200, no certifications, spoilage 20⟩`:
the source's `if / else if` chains give 40, the claimed layering 65. -/
theorem greenScore_additive_counterexample :
    calculateGreenScore ⟨"plastic", 1 / 2, 200, [], 20⟩ = 40 ∧
    greenScoreAdditiveSpec ⟨"plastic", 1 / 2, 200, [], 20⟩ = 65 ∧
    calculateGreenScore ⟨"plastic", 1 / 2, 200, [], 20⟩ ≠
      greenScoreAdditiveSpec ⟨"plastic", 1 / 2, 200, [], 20⟩ := by
  refine ⟨?_, ?_, ?_⟩ <;>
    norm_num [calculateGreenScore, greenScoreAdditiveSpec, packagingScores,
      greenCarbonAdj, greenWaterAdj, greenSpoilageAdj]

/-- C3 amended: the green score starts at base 50 and layers the
adjustments additively, but each metric's threshold bands are mutually
exclusive (only the first satisfied condition of each `if / else if`
chain contributes), before clamping to `[0, 100]`. -/
theorem greenScore_exclusive_bands (p : Product) :
    calculateGreenScore p = greenScoreExclusiveSpec p := by
  unfold calculateGreenScore greenScoreExclusiveSpec
  rw [greenCarbonAdj_bands, greenWaterAdj_bands, greenSpoilageAdj_bands]
  ring_nf

/-- C5: both the green score and the ESG score always land in
`[0, 100]`, for every input; the example product
`⟨minimal, carbon 0.5, water 5, one certification, spoilage 1⟩` has raw
sum 125 and clamps to 100. -/
theorem scores_clamped :
    (∀ p : Product, 0 ≤ calculateGreenScore p ∧ calculateGreenScore p ≤ 100) ∧
    (∀ s : Supplier, 0 ≤ calculateESGScore s ∧ calculateESGScore s ≤ 100) ∧
    calculateGreenScore ⟨"minimal", 1 / 2, 5, ["Organic"], 1⟩ = 100 := by
  refine ⟨fun p => ⟨le_max_left 0 _, max_le (by norm_num) (min_le_left 100 _)⟩,
    fun s => ⟨?_, ?_⟩, ?_⟩
  · unfold calculateESGScore
    refine le_min (add_nonneg (add_nonneg (add_nonneg
      (add_nonneg (certScores_nonneg _) ?_) ?_) ?_) ?_) (by norm_num)
    · split_ifs <;> norm_num
    · split_ifs <;> norm_num
    · split_ifs <;> norm_num
    · exact le_min (by positivity) (by norm_num)
  · exact min_le_right _ 100
  · norm_num [calculateGreenScore, packagingScores, greenCarbonAdj,
      greenWaterAdj, greenSpoilageAdj]

/-- The diesel row of the table, with the `|| 0.15` fallback. -/
theorem dieselRow (v : String) :
    (emissionFactorsVehicle "diesel" v).getD (15 / 100) =
      if v = "truck" then 15 / 100 else if v = "van" then 12 / 100
      else if v = "car" then 8 / 100 else 15 / 100 := by
  unfold emissionFactorsVehicle
  split <;> simp_all

/-- The electric row of the table, with the `|| 0.15` fallback. -/
theorem electricRow (v : String) :
    (emissionFactorsVehicle "electric" v).getD (15 / 100) =
      if v = "truck" then 5 / 100 else if v = "van" then 4 / 100
      else if v = "car" then 2 / 100 else 15 / 100 := by
  unfold emissionFactorsVehicle
  split <;> simp_all

/-- The hybrid row of the table, with the `|| 0.15` fallback. -/
theorem hybridRow (v : String) :
    (emissionFactorsVehicle "hybrid" v).getD (15 / 100) =
      if v = "truck" then 10 / 100 else if v = "van" then 8 / 100
      else if v = "car" then 5 / 100 else 15 / 100 := by
  unfold emissionFactorsVehicle
  split <;> simp_all

/-- Every mode-level factor (with its fallback) is non-negative. -/
theorem emissionFactorsMode_getD_nonneg (m : String) :
    0 ≤ (emissionFactorsMode m).getD (1 / 10) := by
  unfold emissionFactorsMode
  split <;> norm_num

/-- Every vehicle-level factor (with its fallback) is non-negative. -/
theorem emissionFactorsVehicle_getD_nonneg (m v : String) :
    0 ≤ (emissionFactorsVehicle m v).getD (15 / 100) := by
  unfold emissionFactorsVehicle
  split <;> norm_num

/-- `round2` preserves non-negativity. -/
theorem round2_nonneg (x : ℚ) (hx : 0 ≤ x) : 0 ≤ round2 x := by
  unfold round2 jsRound
  have h : (0 : ℤ) ≤ ⌊x * 100 + 1 / 2⌋ := Int.floor_nonneg.mpr (by linarith)
  have h2 : (0 : ℚ) ≤ (⌊x * 100 + 1 / 2⌋ : ℚ) := by exact_mod_cast h
  linarith

/-- `round2` is monotone. -/
theorem round2_mono {x y : ℚ} (h : x ≤ y) : round2 x ≤ round2 y := by
  unfold round2 jsRound
  have hf : ⌊x * 100 + 1 / 2⌋ ≤ ⌊y * 100 + 1 / 2⌋ :=
    Int.floor_le_floor (by linarith)
  have hf2 : ((⌊x * 100 + 1 / 2⌋ : ℤ) : ℚ) ≤ ((⌊y * 100 + 1 / 2⌋ : ℤ) : ℚ) := by
    exact_mod_cast hf
  linarith

/-- `Option.getD _ 0` of a field whose present values are non-negative
is non-negative. -/
theorem optGetD_nonneg (o : Option ℚ) (h : ∀ x ∈ o, 0 ≤ x) : 0 ≤ o.getD 0 := by
  cases o <;> simp_all

/-- The carbon footprint of a shipment with non-negative numeric fields
is non-negative. -/
theorem carbonFootprint_nonneg (s : Shipment)
    (hd : ∀ x ∈ s.distanceKm, 0 ≤ x) (hq : ∀ x ∈ s.quantity, 0 ≤ x)
    (hp : ∀ x ∈ s.packagingWeight, 0 ≤ x) :
    0 ≤ calculateCarbonFootprint s := by
  unfold calculateCarbonFootprint
  by_cases hf : (numFalsy s.distanceKm || strFalsy s.transportMode ||
      numFalsy s.quantity) = true
  · rw [if_pos hf]
  · rw [if_neg hf]
    show 0 ≤ round2 (s.distanceKm.getD 0 *
      (if (s.transportMode.getD "" = "rail" || s.transportMode.getD "" = "ship" ||
            s.transportMode.getD "" = "air") = true then
        (emissionFactorsMode (s.transportMode.getD "")).getD (1 / 10)
      else
        (emissionFactorsVehicle (s.transportMode.getD "")
          (if strFalsy s.vehicleType then "truck" else s.vehicleType.getD "")).getD
            (15 / 100)) *
      ((s.quantity.getD 0 + s.packagingWeight.getD 0) / 1000))
    refine round2_nonneg _ (mul_nonneg (mul_nonneg (optGetD_nonneg _ hd) ?_) ?_)
    · split_ifs
      · exact emissionFactorsMode_getD_nonneg _
      · exact emissionFactorsVehicle_getD_nonneg _ _
      · exact emissionFactorsVehicle_getD_nonneg _ _
    · have h1 := optGetD_nonneg _ hq
      have h2 := optGetD_nonneg _ hp
      positivity

/-- The source's footprint agrees with the claim's closed formula over
the table modes (shared computation for several results below). -/
theorem carbonFootprint_eq_spec (d q pw : ℚ) (mode : String) (vt : Option String)
    (hd : d ≠ 0) (hq : q ≠ 0)
    (hmode : mode = "diesel" ∨ mode = "electric" ∨ mode = "hybrid" ∨
      mode = "rail" ∨ mode = "ship" ∨ mode = "air") :
    calculateCarbonFootprint ⟨some d, some mode, vt, some q, some pw⟩ =
      round2 (d * specEmissionFactor mode vt * ((q + pw) / 1000)) := by
  rcases hmode with h | h | h | h | h | h <;> subst h <;>
    simp [calculateCarbonFootprint, specEmissionFactor, effectiveVehicle,
      numFalsy, strFalsy, hd, hq, dieselRow, electricRow, hybridRow,
      emissionFactorsMode]

/-- The claim's emission factor is non-negative for every input. -/
theorem specEmissionFactor_nonneg (mode : String) (vt : Option String) :
    0 ≤ specEmissionFactor mode vt := by
  unfold specEmissionFactor
  split_ifs <;> norm_num

/-- C1: for a shipment with non-zero distance and quantity and a
transport mode from the defined table, the carbon footprint is
`round2 (distanceKm × emissionFactor × (quantity + packagingWeight) / 1000)`
with the emission factor given by the claim's table
(`specEmissionFactor`), including the default-to-truck and
fall-back-to-diesel-truck rules for the vehicle type. -/
theorem carbonFootprint_formula (d q pw : ℚ) (mode : String) (vt : Option String)
    (hd : d ≠ 0) (hq : q ≠ 0)
    (hmode : mode = "diesel" ∨ mode = "electric" ∨ mode = "hybrid" ∨
      mode = "rail" ∨ mode = "ship" ∨ mode = "air") :
    calculateCarbonFootprint ⟨some d, some mode, vt, some q, some pw⟩ =
      round2 (d * specEmissionFactor mode vt * ((q + pw) / 1000)) :=
  carbonFootprint_eq_spec d q pw mode vt hd hq hmode

/-- Witness for C1: the example shipment (diesel truck, 100 km,
quantity 500, no packaging weight) yields `7.5` kg. -/
theorem carbonFootprint_formula_witness :
    calculateCarbonFootprint ⟨some 100, some "diesel", some "truck", some 500, some 0⟩ =
      15 / 2 := by
  rw [carbonFootprint_formula 100 500 0 "diesel" (some "truck") (by norm_num)
    (by norm_num) (Or.inl rfl)]
  simp [specEmissionFactor, effectiveVehicle, strFalsy]
  norm_num [round2, jsRound]

/-- C6: the carbon footprint calculator is a total function; for
shipments whose numeric fields respect the schema bounds
(`distanceKm ≥ 0`, `quantity ≥ 0`, `packagingWeight ≥ 0`) the result is
non-negative, and it is exactly 0 whenever `distanceKm`,
`transportMode` or `quantity` is missing, zero, or otherwise falsy. -/
theorem carbonFootprint_total_nonneg (s : Shipment)
    (hd : ∀ x ∈ s.distanceKm, 0 ≤ x) (hq : ∀ x ∈ s.quantity, 0 ≤ x)
    (hp : ∀ x ∈ s.packagingWeight, 0 ≤ x) :
    0 ≤ calculateCarbonFootprint s ∧
    ((numFalsy s.distanceKm || strFalsy s.transportMode ||
        numFalsy s.quantity) = true →
      calculateCarbonFootprint s = 0) := by
  refine ⟨carbonFootprint_nonneg s hd hq hp, fun h => ?_⟩
  unfold calculateCarbonFootprint
  rw [if_pos h]

/-- Witness for C6: a shipment with zero distance has footprint 0 and
the result is non-negative. -/
theorem carbonFootprint_total_nonneg_witness :
    0 ≤ calculateCarbonFootprint ⟨some 0, some "diesel", none, some 5, none⟩ ∧
    ((numFalsy (some (0 : ℚ)) || strFalsy (some "diesel") ||
        numFalsy (some (5 : ℚ))) = true →
      calculateCarbonFootprint ⟨some 0, some "diesel", none, some 5, none⟩ = 0) :=
  carbonFootprint_total_nonneg ⟨some 0, some "diesel", none, some 5, none⟩
    (by simp) (by simp) (by simp)

/-- C9: over the defined table modes, the carbon footprint is jointly
monotone: it does not decrease when the distance grows and/or the total
weight grows through its components (quantity, packagingWeight), over
non-negative inputs.  Monotonicity in distance alone and in weight
alone are the two specializations with the other argument fixed. -/
theorem carbonFootprint_monotone (mode : String) (vt : Option String)
    (d1 d2 q1 q2 p1 p2 : ℚ)
    (hmode : mode = "diesel" ∨ mode = "electric" ∨ mode = "hybrid" ∨
      mode = "rail" ∨ mode = "ship" ∨ mode = "air")
    (hd1 : 0 ≤ d1) (hd : d1 ≤ d2) (hq1 : 0 ≤ q1) (hq : q1 ≤ q2)
    (hp1 : 0 ≤ p1) (hp : p1 ≤ p2) :
    calculateCarbonFootprint ⟨some d1, some mode, vt, some q1, some p1⟩ ≤
      calculateCarbonFootprint ⟨some d2, some mode, vt, some q2, some p2⟩ := by
  have hR : 0 ≤ calculateCarbonFootprint ⟨some d2, some mode, vt, some q2, some p2⟩ := by
    apply carbonFootprint_nonneg
    · intro x hx; simp at hx; subst hx; linarith
    · intro x hx; simp at hx; subst hx; linarith
    · intro x hx; simp at hx; subst hx; linarith
  by_cases hz : d1 = 0 ∨ q1 = 0
  · have hL : calculateCarbonFootprint ⟨some d1, some mode, vt, some q1, some p1⟩ = 0 := by
      unfold calculateCarbonFootprint
      rw [if_pos]
      rcases hz with h | h <;> simp [numFalsy, h]
    rw [hL]
    exact hR
  · push_neg at hz
    obtain ⟨hd0, hq0⟩ := hz
    have hd2 : d2 ≠ 0 := by
      intro h
      exact hd0 (le_antisymm (by linarith) hd1)
    have hq2 : q2 ≠ 0 := by
      intro h
      exact hq0 (le_antisymm (by linarith) hq1)
    rw [carbonFootprint_eq_spec d1 q1 p1 mode vt hd0 hq0 hmode,
      carbonFootprint_eq_spec d2 q2 p2 mode vt hd2 hq2 hmode]
    apply round2_mono
    have hF := specEmissionFactor_nonneg mode vt
    refine mul_le_mul (mul_le_mul_of_nonneg_right hd hF) (by linarith)
      (by positivity) (mul_nonneg (hd1.trans hd) hF)

/-- Witness for C9 at concrete inputs. -/
theorem carbonFootprint_monotone_witness :
    calculateCarbonFootprint ⟨some 100, some "diesel", some "truck", some 500, some 0⟩ ≤
      calculateCarbonFootprint ⟨some 200, some "diesel", some "truck", some 600, some 50⟩ :=
  carbonFootprint_monotone "diesel" (some "truck") 100 200 500 600 0 50
    (Or.inl rfl) (by norm_num) (by norm_num) (by norm_num) (by norm_num)
    (by norm_num) (by norm_num)

/-- C2 counterexample: a non-empty alert population with no active
alert — a single resolved alert — makes `criticalRate` the JavaScript
division `0/0 = NaN`, so the waste sub-score is NaN (`none`), not a
well-defined number in `[0, 100]`. -/
theorem wasteScore_nan_counterexample :
    calculateWasteScore [⟨AlertStatus.resolved, RiskLevel.low⟩] = none := by
  rfl

/-- C2 amended: for a non-empty alert population the waste sub-score is
a well-defined number in `[0, 100]` exactly when at least one alert is
active; when no alert is active the `0/0` criticalRate makes the result
NaN (undefined). -/
theorem wasteScore_defined_iff_active (alerts : List AlertAgg) (hne : alerts ≠ []) :
    ((∃ a ∈ alerts, a.status = AlertStatus.active) →
      ∃ v, calculateWasteScore alerts = some v ∧ 0 ≤ v ∧ v ≤ 100) ∧
    ((∀ a ∈ alerts, a.status ≠ AlertStatus.active) →
      calculateWasteScore alerts = none) := by
  have hlen : ¬ alerts.length = 0 := by simpa using hne
  constructor
  · rintro ⟨a, ha, hs⟩
    have hfil : ¬ (alerts.filter
        (fun a => decide (a.status = AlertStatus.active))).length = 0 := by
      simp only [List.length_eq_zero, List.filter_eq_nil]
      push_neg
      exact ⟨a, ha, by simp [hs]⟩
    simp only [calculateWasteScore]
    rw [if_neg hlen, if_neg hfil]
    exact ⟨_, rfl, le_max_left 0 _, max_le (by norm_num) (min_le_left 100 _)⟩
  · intro hall
    have hfil : (alerts.filter
        (fun a => decide (a.status = AlertStatus.active))).length = 0 := by
      simp only [List.length_eq_zero, List.filter_eq_nil]
      intro a ha
      simp [hall a ha]
    simp only [calculateWasteScore]
    rw [if_neg hlen, if_pos hfil]

/-- Witness for C2 (amended): a population with one active alert has a
well-defined (non-NaN) waste sub-score. -/
theorem wasteScore_defined_iff_active_witness :
    (calculateWasteScore [⟨AlertStatus.active, RiskLevel.low⟩]).isSome = true := by
  obtain ⟨v, hv, h0, h1⟩ := (wasteScore_defined_iff_active
    [⟨AlertStatus.active, RiskLevel.low⟩] (by simp)).1
    ⟨⟨AlertStatus.active, RiskLevel.low⟩, by simp, rfl⟩
  rw [hv]
  rfl
